import Mathlib

/-!
# Verification of the MultipathLatencyAnalyzer stream client

Shallow embedding of `stream_client.cpp` (the `multipath::StreamClient` measurement
engine) and of the wire-codec constants from `datagram.h`, together with theorems
settling the specification's claims about them.

Conventions of the embedding:
* C++ `long long` values are modelled as `Int`; C++ unsigned parameters
  (`unsigned long`) are modelled as `Nat` and cast where the source converts them.
* Every integer division in the modelled source has non-negative operands
  (the inputs come from unsigned configuration values), where Lean's `Int`
  division agrees with C++ truncating division.
* `static_cast<size_t>` and the implicit `long long` → `unsigned long long`
  conversion of C++ comparisons are modelled as reduction modulo `2 ^ 64`
  (`castToSizeT`), exactly the two's-complement conversion the ABI performs.
* `std::vector<LatencyData>` is modelled as `List LatencyData`; an access
  `m_latencyData[i]` with `i` out of range is undefined behaviour in the source
  and is modelled by the explicit `CompletionResult.outOfBounds` outcome.
-/

namespace Multipath

/-! ## Wire codec constants (`datagram.h`) -/

def c_datagramSequenceNumberLength : Nat := 8

def c_datagramTimestampLength : Nat := 8

def c_datagramHeaderLength : Nat :=
  c_datagramSequenceNumberLength + 2 * c_datagramTimestampLength

/-- `ValidateBufferLength` from `datagram.h`: rejects a completed receive whose
byte count is smaller than the fixed datagram header length. -/
def ValidateBufferLength (completedBytes : Nat) : Bool :=
  if completedBytes < c_datagramHeaderLength then false else true

/-! ## Rate calculations (anonymous namespace of `stream_client.cpp`) -/

/-- `CalculateTickInterval` from `stream_client.cpp`: the timer period, in
hundred-nanosecond units, needed to send `datagramSize`-byte datagrams in groups
of `frameRate` at `bitRate` bits per second. -/
def CalculateTickInterval (bitRate frameRate datagramSize : Int) : Int :=
  let hundredNanoSecInSecond : Int := 10000000
  let byteRate : Int := bitRate / 8
  datagramSize * frameRate * hundredNanoSecInSecond / byteRate

/-- `CalculateNumberOfDatagramToSend` from `stream_client.cpp`: total number of
datagrams needed to sustain `bitRate` bits per second for `duration` seconds. -/
def CalculateNumberOfDatagramToSend (duration bitRate datagramSize : Int) : Int :=
  let byteRate : Int := bitRate / 8
  duration * byteRate / datagramSize

/-- Modelled from the spec: `MeasuredSocket::c_bufferSize`, the fixed
per-datagram buffer size. The `MeasuredSocket` class itself is not part of the
sources at hand; the spec fixes the per-datagram size at 1024 bytes (1KB), and
the surviving `stream_client.h` declares the matching 1KB send/receive buffers. -/
def c_bufferSize : Nat := 1024

/-! ## Data model -/

/-- Modelled from the spec: `LatencyData` (declared in the absent
`latencyStatistics.h`), one record per sequence number with the six per-path
timestamps, each unset (zero) until the corresponding completion writes it. -/
structure LatencyData where
  m_primarySendTimestamp : Int
  m_primaryEchoTimestamp : Int
  m_primaryReceiveTimestamp : Int
  m_secondarySendTimestamp : Int
  m_secondaryEchoTimestamp : Int
  m_secondaryReceiveTimestamp : Int
deriving DecidableEq

/-- A freshly default-constructed `LatencyData` record (all timestamps unset). -/
def LatencyData.init : LatencyData :=
  { m_primarySendTimestamp := 0
  , m_primaryEchoTimestamp := 0
  , m_primaryReceiveTimestamp := 0
  , m_secondarySendTimestamp := 0
  , m_secondaryEchoTimestamp := 0
  , m_secondaryReceiveTimestamp := 0 }

/-- `StreamClient::Interface`: which physical path an operation happened on. -/
inductive Interface where
  | Primary
  | Secondary
deriving DecidableEq

/-- `MeasuredSocket::AdapterStatus` (named `AdapterStatus` in `stream_client.h`). -/
inductive AdapterStatus where
  | Disabled
  | Connecting
  | Ready
deriving DecidableEq

/-- `MeasuredSocket::SendResult`: the per-send context delivered to
`StreamClient::SendCompletion`. -/
structure SendResult where
  m_sequenceNumber : Int
  m_sendTimestamp : Int
deriving DecidableEq

/-- `MeasuredSocket::ReceiveResult`: the decoded header and local receive
timestamp delivered to `StreamClient::ReceiveCompletion`. -/
structure ReceiveResult where
  m_sequenceNumber : Int
  m_sendTimestamp : Int
  m_echoTimestamp : Int
  m_receiveTimestamp : Int
deriving DecidableEq

/-- The `StreamClient` state. Fields prefixed `m_` are the members of the C++
class; the remaining fields make the externally visible effects of the member
calls explicit state (timer armed, sockets open, network-change subscription
active, number of `SetEvent` calls on the completion event, log of datagrams
handed to the transport). -/
structure StreamClient where
  m_frameRate : Int
  m_tickInterval : Int
  m_finalSequenceNumber : Int
  m_running : Bool
  m_sequenceNumber : Int
  m_latencyData : List LatencyData
  m_primaryCorruptFrames : Int
  m_secondaryCorruptFrames : Int
  -- m_primaryState.m_corruptFrames / m_secondaryState.m_corruptFrames
  primaryStateCorruptFrames : Int
  secondaryStateCorruptFrames : Int
  -- m_primaryState.m_adapterStatus / m_secondaryState.m_adapterStatus
  primaryStatus : AdapterStatus
  secondaryStatus : AdapterStatus
  -- whether each path currently owns an open socket (Setup opens, Cancel closes)
  primarySocketOpen : Bool
  secondarySocketOpen : Bool
  -- m_networkInformationEventRevoker holds a live subscription
  networkSubscriptionActive : Bool
  -- m_threadpoolTimer is scheduled
  timerArmed : Bool
  -- number of SetEvent(m_completeEvent) calls performed
  setEventCount : Nat
  -- datagrams handed to MeasuredSocket::SendDatagram, in order
  sent : List (Interface × Int)
deriving DecidableEq

/-- The state established by the `StreamClient` constructor together with the
member initializers of `stream_client.h` (in particular
`m_finalSequenceNumber = -1` and `m_sequenceNumber = 0`). -/
def initClient : StreamClient :=
  { m_frameRate := 0
  , m_tickInterval := 0
  , m_finalSequenceNumber := -1
  , m_running := false
  , m_sequenceNumber := 0
  , m_latencyData := []
  , m_primaryCorruptFrames := 0
  , m_secondaryCorruptFrames := 0
  , primaryStateCorruptFrames := 0
  , secondaryStateCorruptFrames := 0
  , primaryStatus := AdapterStatus.Disabled
  , secondaryStatus := AdapterStatus.Disabled
  , primarySocketOpen := false
  , secondarySocketOpen := false
  , networkSubscriptionActive := false
  , timerArmed := false
  , setEventCount := 0
  , sent := [] }

/-! ## Machine-integer conversions -/

/-- `SIZE_MAX` on the 64-bit target (`MAXSIZE_T`). -/
def MAXSIZE_T : Nat := 18446744073709551615

/-- Conversion of a `long long` value to `unsigned long long` / `size_t` on the
64-bit target: reduction modulo `2 ^ 64`. -/
def castToSizeT (x : Int) : Nat :=
  (x % (18446744073709551616 : Int)).toNat

/-- The condition of `FAIL_FAST_IF_MSG(sendState.m_sequenceNumber > MAXSIZE_T, ...)`
in `StreamClient::SendCompletion`: the usual arithmetic conversions first convert
the `long long` operand to `unsigned long long`, then compare with `SIZE_MAX`. -/
def seqAboveMaxSizeT (x : Int) : Bool :=
  decide (castToSizeT x > MAXSIZE_T)

/-! ## Completion pipeline (`StreamClient::SendCompletion` / `ReceiveCompletion`) -/

/-- Outcome of a completion handler: a normal return with the updated client
state, a fired `FAIL_FAST` abort, or an out-of-bounds `std::vector` access
(undefined behaviour in the source, surfaced explicitly here). -/
inductive CompletionResult where
  | ok (s : StreamClient)
  | failFast
  | outOfBounds (idx : Nat)
deriving DecidableEq

/-- `StreamClient::SendCompletion`: record the send timestamp of `sendState`'s
sequence number for the given interface. -/
def SendCompletion (s : StreamClient) (itf : Interface) (sendState : SendResult) :
    CompletionResult :=
  if seqAboveMaxSizeT sendState.m_sequenceNumber then .failFast
  else
    let idx := castToSizeT sendState.m_sequenceNumber
    if h : idx < s.m_latencyData.length then
      let stat := s.m_latencyData.get ⟨idx, h⟩
      let stat2 :=
        match itf with
        | .Primary => { stat with m_primarySendTimestamp := sendState.m_sendTimestamp }
        | .Secondary => { stat with m_secondarySendTimestamp := sendState.m_sendTimestamp }
      .ok { s with m_latencyData := s.m_latencyData.set idx stat2 }
    else .outOfBounds idx

/-- The in-range write of `StreamClient::ReceiveCompletion`: the three fields of
the record belonging to the interface the frame arrived on, all assigned from
the received result. -/
def writeReceiveFields (stat : LatencyData) (itf : Interface) (result : ReceiveResult) :
    LatencyData :=
  match itf with
  | .Primary =>
    { stat with m_primarySendTimestamp := result.m_sendTimestamp
              , m_primaryEchoTimestamp := result.m_echoTimestamp
              , m_primaryReceiveTimestamp := result.m_receiveTimestamp }
  | .Secondary =>
    { stat with m_secondarySendTimestamp := result.m_sendTimestamp
              , m_secondaryEchoTimestamp := result.m_echoTimestamp
              , m_secondaryReceiveTimestamp := result.m_receiveTimestamp }

/-- `StreamClient::ReceiveCompletion`: reject an out-of-range sequence number as
a corrupt frame for the arrival path, otherwise store the timestamps into the
record indexed by the sequence number. -/
def ReceiveCompletion (s : StreamClient) (itf : Interface) (result : ReceiveResult) :
    CompletionResult :=
  if result.m_sequenceNumber < 0 ∨ result.m_sequenceNumber ≥ s.m_finalSequenceNumber then
    .ok (match itf with
      | .Primary => { s with m_primaryCorruptFrames := s.m_primaryCorruptFrames + 1 }
      | .Secondary => { s with m_secondaryCorruptFrames := s.m_secondaryCorruptFrames + 1 })
  else
    let idx := castToSizeT result.m_sequenceNumber
    if h : idx < s.m_latencyData.length then
      let stat := s.m_latencyData.get ⟨idx, h⟩
      .ok { s with m_latencyData := s.m_latencyData.set idx (writeReceiveFields stat itf result) }
    else .outOfBounds idx

/-- Modelled from the spec: `MeasuredSocket`'s receive handler (the class is not
among the sources at hand) validates the completed byte count with
`ValidateBufferLength` before any header parsing; an undersized frame is counted
corrupt for its path (`m_corruptFrames` of the `MeasuredSocket`) and is
discarded without being parsed or stored. Only when validation passes is the
decoded header `result` consulted and `StreamClient::ReceiveCompletion` run. -/
def MeasuredSocketReceive (s : StreamClient) (itf : Interface) (completedBytes : Nat)
    (result : ReceiveResult) : CompletionResult :=
  if ValidateBufferLength completedBytes = false then
    .ok (match itf with
      | .Primary =>
        { s with primaryStateCorruptFrames := s.primaryStateCorruptFrames + 1 }
      | .Secondary =>
        { s with secondaryStateCorruptFrames := s.secondaryStateCorruptFrames + 1 })
  else
    ReceiveCompletion s itf result

/-! ## Run control (`StreamClient::Start` / `Stop`) -/

/-- `StreamClient::Stop`: clear the running flag, stop the timer, revoke the
network-change subscription, cancel both paths and signal the completion event.
(The fixed `Sleep(1000)` grace period has no effect on the modelled state.) -/
def Stop (s : StreamClient) : StreamClient :=
  { s with m_running := false
         , timerArmed := false
         , networkSubscriptionActive := false
         , primarySocketOpen := false
         , secondarySocketOpen := false
         , setEventCount := s.setEventCount + 1 }

/-- `std::vector::resize`: keep the existing records, truncating or appending
default-constructed records to reach the requested size. -/
def vectorResize (l : List LatencyData) (n : Nat) : List LatencyData :=
  if n ≤ l.length then l.take n
  else l ++ List.replicate (n - l.length) LatencyData.init

/-- `StreamClient::Start` on the path where the primary setup succeeds: stop if
still running, compute the tick interval and datagram count, accumulate the
final sequence number, resize the aggregator, set up the primary path and mark
it `Ready`, then start the timer. The secondary-interface setup of line 157 is
driven by the external network environment and is modelled separately by
`updateSecondaryConnecting`; the `FAIL_FAST_IF_MSG(m_finalSequenceNumber >
MAXSIZE_T, ...)` guard has the same always-false shape as `seqAboveMaxSizeT`
(see the claim-C2 theorem) and allocation failure of `resize` is not modelled. -/
def Start (s : StreamClient) (sendBitRate sendFrameRate duration : Nat) : StreamClient :=
  let s0 := if s.m_running then Stop s else s
  let tickInterval := CalculateTickInterval sendBitRate sendFrameRate (c_bufferSize : Int)
  let nbDatagramToSend :=
    CalculateNumberOfDatagramToSend duration sendBitRate (c_bufferSize : Int)
  let s1 := { s0 with m_frameRate := (sendFrameRate : Int)
                    , m_tickInterval := tickInterval
                    , m_finalSequenceNumber := s0.m_finalSequenceNumber + nbDatagramToSend }
  let s2 := { s1 with m_latencyData :=
                 vectorResize s1.m_latencyData (castToSizeT s1.m_finalSequenceNumber) }
  let s3 := { s2 with primarySocketOpen := true
                    , primaryStatus := AdapterStatus.Ready }
  { s3 with m_running := true, timerArmed := true }

/-! ## Send scheduler (`StreamClient::TimerCallback` / `SendDatagrams`) -/

/-- `StreamClient::SendDatagrams`: send the current sequence number on the
primary path, also on the secondary path when it is `Ready`, then advance the
shared sequence counter once. -/
def SendDatagrams (s : StreamClient) : StreamClient :=
  let s1 := { s with sent := s.sent ++ [(Interface.Primary, s.m_sequenceNumber)] }
  let s2 := if s1.secondaryStatus = AdapterStatus.Ready
            then { s1 with sent := s1.sent ++ [(Interface.Secondary, s1.m_sequenceNumber)] }
            else s1
  { s2 with m_sequenceNumber := s2.m_sequenceNumber + 1 }

/-- The `for` loop of `TimerCallback`: up to `fuel = m_frameRate` iterations of
`SendDatagrams`, stopping early once the sequence counter reaches the final
sequence number. -/
def sendLoop (s : StreamClient) : Nat → StreamClient
  | 0 => s
  | fuel + 1 =>
    if s.m_sequenceNumber < s.m_finalSequenceNumber then
      sendLoop (SendDatagrams s) fuel
    else s

/-- Outcome of one timer callback: an early return because the client is not
running, a tick that rescheduled the timer, a tick that reached the final
sequence number and invoked `Stop`, or the `FAIL_FAST` overshoot abort. -/
inductive TimerResult where
  | notRunning (s : StreamClient)
  | rescheduled (s : StreamClient)
  | stopped (s : StreamClient)
  | failFast
deriving DecidableEq

/-- `m_threadpoolTimer->Schedule(m_tickInterval)`: re-arm the timer. -/
def armTimer (s : StreamClient) : StreamClient :=
  { s with timerArmed := true }

/-- `StreamClient::TimerCallback`: send a batch of up to `m_frameRate` frames,
then either reschedule the timer or, once the final sequence number is reached,
stop the run. -/
def TimerCallback (s : StreamClient) : TimerResult :=
  if s.m_running = false then .notRunning s
  else
    let t := sendLoop s s.m_frameRate.toNat
    if t.m_sequenceNumber < t.m_finalSequenceNumber then
      .rescheduled (armTimer t)
    else if t.m_sequenceNumber > t.m_finalSequenceNumber then .failFast
    else .stopped (Stop t)

/-- Drive the scheduler: run timer callbacks while they keep rescheduling, with
the given fuel bound. Returns `some (k, t)` when the `k`-th callback stopped the
run leaving state `t`; `none` when the fuel ran out or the scheduler exited
abnormally. -/
def ticksUntilStop : Nat → StreamClient → Option (Nat × StreamClient)
  | 0, _ => none
  | fuel + 1, s =>
    match TimerCallback s with
    | .rescheduled t => (ticksUntilStop fuel t).map (fun p => (p.1 + 1, p.2))
    | .stopped t => some (1, t)
    | .notRunning _ => none
    | .failFast => none

/-! ## Secondary-interface lifecycle (`StreamClient::SetupSecondaryInterface`) -/

/-- Outcome of one of the `MeasuredSocket` calls (`Setup`, `CheckConnectivity`,
`PrepareToReceive`) made while promoting a connected secondary interface: the
call returned normally, threw `wil::ResultException` with
`HRESULT_FROM_WIN32(ERROR_NOT_CONNECTED)`, or threw anything else. The calls
themselves live in the absent `MeasuredSocket` sources, so their outcomes are
inputs of the model. -/
inductive CallOutcome where
  | success
  | errorNotConnected
  | errorOther
deriving DecidableEq

/-- Result of the connected-secondary branch of the network-status callback. -/
inductive SecondaryOutcome where
  | ok (s : StreamClient)
  | processAborted
deriving DecidableEq

/-- Lines 88–119 of `stream_client.cpp`: when a `Connecting` secondary interface
is reported connected, run `Setup`, `CheckConnectivity` and `PrepareToReceive`
in order inside one `try`; on success mark the path `Ready`. A
`wil::ResultException` carrying `ERROR_NOT_CONNECTED` — thrown by whichever of
the three calls fails first — is caught, the path is cancelled and demoted back
to `Connecting`; any other exception reaches `FAIL_FAST_CAUGHT_EXCEPTION()`. -/
def updateSecondaryConnecting (s : StreamClient) (connected : Bool)
    (setup check prepare : CallOutcome) : SecondaryOutcome :=
  if s.secondaryStatus = AdapterStatus.Connecting ∧ connected = true then
    match setup, check, prepare with
    | .errorNotConnected, _, _ =>
      .ok { s with secondarySocketOpen := false
                 , secondaryStatus := AdapterStatus.Connecting }
    | .errorOther, _, _ => .processAborted
    | .success, .errorNotConnected, _ =>
      .ok { s with secondarySocketOpen := false
                 , secondaryStatus := AdapterStatus.Connecting }
    | .success, .errorOther, _ => .processAborted
    | .success, .success, .errorNotConnected =>
      .ok { s with secondarySocketOpen := false
                 , secondaryStatus := AdapterStatus.Connecting }
    | .success, .success, .errorOther => .processAborted
    | .success, .success, .success =>
      .ok { s with secondarySocketOpen := true
                 , secondaryStatus := AdapterStatus.Ready }
  else .ok s

/-- A sequence of `Start` calls (restarts), each with its own bit rate, frame
rate and duration, applied in order. -/
def startRuns (s : StreamClient) (runs : List (Nat × Nat × Nat)) : StreamClient :=
  runs.foldl (fun t p => Start t p.1 p.2.1 p.2.2) s

/-! ## Concrete states used by the theorems below -/

/-- The state reached by an `ok` completion, with a fallback for the abnormal
outcomes. -/
def okStateOf (r : CompletionResult) (dflt : StreamClient) : StreamClient :=
  match r with
  | .ok t => t
  | _ => dflt

/-- A client mid-run with three planned datagrams and three aggregator records. -/
def s2ex : StreamClient :=
  { initClient with m_finalSequenceNumber := 3
                  , m_latencyData := List.replicate 3 LatencyData.init }

/-- A one-record aggregator whose record already carries a primary send
timestamp of 7 and a primary echo timestamp of 5. -/
def latRec3 : LatencyData :=
  { m_primarySendTimestamp := 7
  , m_primaryEchoTimestamp := 5
  , m_primaryReceiveTimestamp := 0
  , m_secondarySendTimestamp := 0
  , m_secondaryEchoTimestamp := 0
  , m_secondaryReceiveTimestamp := 0 }

/-- A client mid-run with one planned datagram whose record is `latRec3`. -/
def s3cex : StreamClient :=
  { initClient with m_finalSequenceNumber := 1, m_latencyData := [latRec3] }

/-- A received frame for sequence number 0 echoing send timestamp 42, carrying
a zero (absent) echo timestamp, received locally at 99. -/
def r3cex : ReceiveResult :=
  { m_sequenceNumber := 0, m_sendTimestamp := 42, m_echoTimestamp := 0
  , m_receiveTimestamp := 99 }

/-- A client mid-run with one planned datagram and a fresh record. -/
def s3w : StreamClient :=
  { initClient with m_finalSequenceNumber := 1, m_latencyData := [LatencyData.init] }

/-- A received frame for sequence number 0 with all three timestamps present. -/
def r3w : ReceiveResult :=
  { m_sequenceNumber := 0, m_sendTimestamp := 42, m_echoTimestamp := 7
  , m_receiveTimestamp := 99 }

/-- A client whose secondary interface is waiting for connectivity. -/
def sConn : StreamClient :=
  { initClient with secondaryStatus := AdapterStatus.Connecting }

/-- A running client with five planned frames sent two per tick. -/
def s7w : StreamClient :=
  { initClient with m_running := true, m_finalSequenceNumber := 5, m_frameRate := 2 }

/-! ## Helper lemmas -/

theorem vectorResize_length (l : List LatencyData) (n : Nat) :
    (vectorResize l n).length = n := by
  unfold vectorResize; split
  · simp [List.length_take]; omega
  · simp; omega

theorem Start_latencyData (s : StreamClient) (b f d : Nat) :
    (Start s b f d).m_latencyData
      = vectorResize s.m_latencyData
          (castToSizeT (s.m_finalSequenceNumber
            + CalculateNumberOfDatagramToSend d b (c_bufferSize : Int))) := by
  unfold Start; split <;> rfl

theorem Start_final (s : StreamClient) (b f d : Nat) :
    (Start s b f d).m_finalSequenceNumber
      = s.m_finalSequenceNumber + CalculateNumberOfDatagramToSend d b (c_bufferSize : Int) := by
  unfold Start; split <;> rfl

theorem listGetD_eq_get (l : List LatencyData) (i : Nat) (d : LatencyData)
    (h : i < l.length) : l.getD i d = l.get ⟨i, h⟩ := by
  induction l generalizing i with
  | nil => simp at h
  | cons a t ih =>
    cases i with
    | zero => rfl
    | succ j => exact ih j (by simpa using h)

theorem SendDatagrams_fields (s : StreamClient) :
    (SendDatagrams s).m_sequenceNumber = s.m_sequenceNumber + 1 ∧
    (SendDatagrams s).m_finalSequenceNumber = s.m_finalSequenceNumber ∧
    (SendDatagrams s).m_frameRate = s.m_frameRate ∧
    (SendDatagrams s).m_running = s.m_running ∧
    (SendDatagrams s).setEventCount = s.setEventCount := by
  by_cases h : s.secondaryStatus = AdapterStatus.Ready <;>
    simp [SendDatagrams, h]

theorem sendLoop_fields (fuel : Nat) : ∀ s : StreamClient,
    (sendLoop s fuel).m_finalSequenceNumber = s.m_finalSequenceNumber ∧
    (sendLoop s fuel).m_frameRate = s.m_frameRate ∧
    (sendLoop s fuel).m_running = s.m_running ∧
    (sendLoop s fuel).setEventCount = s.setEventCount := by
  induction fuel with
  | zero => exact fun s => ⟨rfl, rfl, rfl, rfl⟩
  | succ n ih =>
    intro s
    unfold sendLoop
    split
    · have h1 := ih (SendDatagrams s)
      have h2 := SendDatagrams_fields s
      exact ⟨h1.1.trans h2.2.1, h1.2.1.trans h2.2.2.1, h1.2.2.1.trans h2.2.2.2.1,
        h1.2.2.2.trans h2.2.2.2.2⟩
    · exact ⟨rfl, rfl, rfl, rfl⟩

theorem sendLoop_seq (fuel : Nat) : ∀ s : StreamClient,
    s.m_sequenceNumber ≤ s.m_finalSequenceNumber →
    (sendLoop s fuel).m_sequenceNumber
      = min (s.m_sequenceNumber + (fuel : Int)) s.m_finalSequenceNumber := by
  induction fuel with
  | zero =>
    intro s h
    show s.m_sequenceNumber = min (s.m_sequenceNumber + ((0 : Nat) : Int)) s.m_finalSequenceNumber
    omega
  | succ n ih =>
    intro s h
    unfold sendLoop
    split
    · rename_i hlt
      have h2 := SendDatagrams_fields s
      have h3 := ih (SendDatagrams s) (by rw [h2.1, h2.2.1]; omega)
      rw [h3, h2.1, h2.2.1]
      push_cast
      omega
    · rename_i hge
      push_cast
      omega

theorem ticksUntilStop_succ (fuel : Nat) (s : StreamClient) :
    ticksUntilStop (fuel + 1) s
      = match TimerCallback s with
        | .rescheduled t => (ticksUntilStop fuel t).map (fun p => (p.1 + 1, p.2))
        | .stopped t => some (1, t)
        | .notRunning _ => none
        | .failFast => none := rfl

theorem TimerCallback_stop (s : StreamClient)
    (h1 : s.m_running = true) (h2 : 0 < s.m_frameRate)
    (h3 : s.m_sequenceNumber ≤ s.m_finalSequenceNumber)
    (h4 : s.m_finalSequenceNumber ≤ s.m_sequenceNumber + s.m_frameRate) :
    TimerCallback s = .stopped (Stop (sendLoop s s.m_frameRate.toNat)) ∧
    (sendLoop s s.m_frameRate.toNat).m_sequenceNumber = s.m_finalSequenceNumber := by
  have htn : ((s.m_frameRate.toNat : Nat) : Int) = s.m_frameRate := Int.toNat_of_nonneg h2.le
  have hseq : (sendLoop s s.m_frameRate.toNat).m_sequenceNumber = s.m_finalSequenceNumber := by
    rw [sendLoop_seq s.m_frameRate.toNat s h3, htn]; omega
  have hfin := (sendLoop_fields s.m_frameRate.toNat s).1
  refine ⟨?_, hseq⟩
  simp only [TimerCallback, h1, hseq, hfin]
  simp

theorem TimerCallback_resched (s : StreamClient)
    (h1 : s.m_running = true) (h2 : 0 < s.m_frameRate)
    (h3 : s.m_sequenceNumber ≤ s.m_finalSequenceNumber)
    (h4 : s.m_sequenceNumber + s.m_frameRate < s.m_finalSequenceNumber) :
    TimerCallback s
      = .rescheduled (armTimer (sendLoop s s.m_frameRate.toNat)) ∧
    (sendLoop s s.m_frameRate.toNat).m_sequenceNumber
      = s.m_sequenceNumber + s.m_frameRate := by
  have htn : ((s.m_frameRate.toNat : Nat) : Int) = s.m_frameRate := Int.toNat_of_nonneg h2.le
  have hseq : (sendLoop s s.m_frameRate.toNat).m_sequenceNumber
      = s.m_sequenceNumber + s.m_frameRate := by
    rw [sendLoop_seq s.m_frameRate.toNat s h3, htn]; omega
  have hfin := (sendLoop_fields s.m_frameRate.toNat s).1
  refine ⟨?_, hseq⟩
  simp only [TimerCallback, h1, hseq, hfin]
  simp [h4]

theorem ticks_exact (k : Nat) : ∀ s : StreamClient,
    s.m_running = true → 0 < s.m_frameRate →
    s.m_sequenceNumber < s.m_finalSequenceNumber →
    s.m_finalSequenceNumber ≤ s.m_sequenceNumber + (k : Int) * s.m_frameRate →
    s.m_sequenceNumber + ((k : Int) - 1) * s.m_frameRate < s.m_finalSequenceNumber →
    ∃ t : StreamClient,
      ticksUntilStop k s = some (k, t) ∧
      t.m_sequenceNumber = s.m_finalSequenceNumber ∧
      t.m_running = false ∧
      t.setEventCount = s.setEventCount + 1 := by
  induction k with
  | zero =>
    intro s h1 h2 h3 h4 h5
    exfalso
    simp only [Nat.cast_zero, zero_mul] at h4
    omega
  | succ n ih =>
    intro s h1 h2 h3 h4 h5
    push_cast at h4 h5
    have hexp : ((n : Int) + 1) * s.m_frameRate
        = (n : Int) * s.m_frameRate + s.m_frameRate := by ring
    have hexp2 : ((n : Int) + 1 - 1) * s.m_frameRate = (n : Int) * s.m_frameRate := by ring
    rw [hexp] at h4
    rw [hexp2] at h5
    by_cases hstop : s.m_finalSequenceNumber ≤ s.m_sequenceNumber + s.m_frameRate
    · have hn0 : n = 0 := by
        by_contra hne
        have h1n : (1 : Int) ≤ (n : Int) := by
          exact_mod_cast Nat.one_le_iff_ne_zero.mpr hne
        have hfn : s.m_frameRate ≤ (n : Int) * s.m_frameRate :=
          le_mul_of_one_le_left h2.le h1n
        linarith
      subst hn0
      obtain ⟨htc, hseq⟩ := TimerCallback_stop s h1 h2 h3.le hstop
      have hcount := (sendLoop_fields s.m_frameRate.toNat s).2.2.2
      refine ⟨Stop (sendLoop s s.m_frameRate.toNat), ?_, hseq, rfl, ?_⟩
      · rw [ticksUntilStop_succ, htc]
      · show (sendLoop s s.m_frameRate.toNat).setEventCount + 1 = s.setEventCount + 1
        rw [hcount]
    · push_neg at hstop
      obtain ⟨htc, hseq⟩ := TimerCallback_resched s h1 h2 h3.le hstop
      have hf := sendLoop_fields s.m_frameRate.toNat s
      obtain ⟨t, hticks, hseqt, hrunt, hcountt⟩ :=
        ih (armTimer (sendLoop s s.m_frameRate.toNat))
          (by show (sendLoop s s.m_frameRate.toNat).m_running = true; rw [hf.2.2.1]; exact h1)
          (by show 0 < (sendLoop s s.m_frameRate.toNat).m_frameRate; rw [hf.2.1]; exact h2)
          (by show (sendLoop s s.m_frameRate.toNat).m_sequenceNumber
                < (sendLoop s s.m_frameRate.toNat).m_finalSequenceNumber
              rw [hseq, hf.1]; exact hstop)
          (by show (sendLoop s s.m_frameRate.toNat).m_finalSequenceNumber
                ≤ (sendLoop s s.m_frameRate.toNat).m_sequenceNumber
                  + (n : Int) * (sendLoop s s.m_frameRate.toNat).m_frameRate
              rw [hseq, hf.1, hf.2.1]; linarith)
          (by show (sendLoop s s.m_frameRate.toNat).m_sequenceNumber
                + ((n : Int) - 1) * (sendLoop s s.m_frameRate.toNat).m_frameRate
                < (sendLoop s s.m_frameRate.toNat).m_finalSequenceNumber
              rw [hseq, hf.1, hf.2.1]
              have hsub : ((n : Int) - 1) * s.m_frameRate
                  = (n : Int) * s.m_frameRate - s.m_frameRate := by ring
              rw [hsub]; linarith)
      refine ⟨t, ?_, ?_, hrunt, ?_⟩
      · rw [ticksUntilStop_succ, htc]
        show Option.map (fun p => (p.1 + 1, p.2))
            (ticksUntilStop n (armTimer (sendLoop s s.m_frameRate.toNat))) = some (n + 1, t)
        rw [hticks]
        rfl
      · rw [hseqt]
        show (sendLoop s s.m_frameRate.toNat).m_finalSequenceNumber = s.m_finalSequenceNumber
        exact hf.1
      · rw [hcountt]
        show (sendLoop s s.m_frameRate.toNat).setEventCount + 1 = s.setEventCount + 1
        rw [hf.2.2.2]

theorem startRuns_final (runs : List (Nat × Nat × Nat)) : ∀ s : StreamClient,
    (startRuns s runs).m_finalSequenceNumber
      = s.m_finalSequenceNumber
        + (runs.map (fun p =>
            CalculateNumberOfDatagramToSend p.2.2 p.1 (c_bufferSize : Int))).sum := by
  induction runs with
  | nil => intro s; simp [startRuns]
  | cons a rest ih =>
    intro s
    have hstep : startRuns s (a :: rest) = startRuns (Start s a.1 a.2.1 a.2.2) rest := rfl
    rw [hstep, ih, Start_final]
    simp only [List.map_cons, List.sum_cons]
    omega

/-! ## Claim theorems -/

/-- Claim C1, counterexample: in the scenario (bit rate 2,000,000 bits/s, frame
rate 50/s, duration 10 s, datagram size 1024 bytes) the final sequence number
`Start` leaves in `m_finalSequenceNumber` is not 2441. -/
theorem claim1_counterexample :
    (Start initClient 2000000 50 10).m_finalSequenceNumber ≠ 2441 ∧
    (Start initClient 2000000 50 10).m_finalSequenceNumber = 2440 := by
  exact ⟨by decide, by decide⟩

/-- Claim C1, amended: in the scenario the computed datagram count is
(10 × 250000) / 1024 = 2441, but `Start` adds it to `m_finalSequenceNumber`,
which the constructor initialized to −1, so the final sequence number it then
uses to size the aggregator array and to terminate the run equals 2440; the
aggregator is sized to 2440 records. -/
theorem claim1_final_sequence_number :
    CalculateNumberOfDatagramToSend 10 2000000 1024 = 2441 ∧
    (Start initClient 2000000 50 10).m_finalSequenceNumber = 2440 ∧
    (Start initClient 2000000 50 10).m_latencyData.length = 2440 := by
  refine ⟨by decide, by decide, ?_⟩
  rw [Start_latencyData, vectorResize_length]
  decide

/-- Claim C2: the `FAIL_FAST` guard of `SendCompletion` compares the sequence
number, converted to `unsigned long long`, against `SIZE_MAX`, which is false
for every 64-bit value; consequently a `SendState` carrying sequence number −1
reaches the vector access and indexes the aggregator out of bounds at
`2 ^ 64 − 1` (undefined behaviour), contradicting the claim and the guard's own
"sequence number out of bounds of vector" message. -/
theorem claim2_send_completion_out_of_bounds :
    (∀ q : Int, seqAboveMaxSizeT q = false) ∧
    SendCompletion s2ex .Primary { m_sequenceNumber := -1, m_sendTimestamp := 0 }
      = .outOfBounds 18446744073709551615 := by
  constructor
  · intro q
    unfold seqAboveMaxSizeT castToSizeT MAXSIZE_T
    simp only [decide_eq_false_iff_not]
    omega
  · decide

/-- Claim C3, counterexample: a receive completion on the primary path for an
in-range sequence number overwrites the primary send-timestamp field (7 becomes
the echoed 42) and overwrites the echo-timestamp field even though the echoed
value is zero (5 becomes 0), so receive completions do not update only the
receive-timestamp field plus a non-zero echo. -/
theorem claim3_counterexample :
    (s3cex.m_latencyData.getD 0 LatencyData.init).m_primarySendTimestamp = 7 ∧
    (s3cex.m_latencyData.getD 0 LatencyData.init).m_primaryEchoTimestamp = 5 ∧
    ((okStateOf (ReceiveCompletion s3cex .Primary r3cex) initClient).m_latencyData.getD 0
        LatencyData.init).m_primarySendTimestamp = 42 ∧
    ((okStateOf (ReceiveCompletion s3cex .Primary r3cex) initClient).m_latencyData.getD 0
        LatencyData.init).m_primaryEchoTimestamp = 0 := by
  decide

/-- Claim C3, amended: a receive completion on path P carrying an in-range
sequence number i whose index is within the aggregator rewrites exactly the
record at index i, assigning the send-, echo- and receive-timestamp fields of
path P's half of that record unconditionally (the echo timestamp even when the
echoed value is zero); the other path's fields of that record, every other
record, and all remaining client state are unchanged. -/
theorem claim3_receive_writes_path_fields (s : StreamClient) (itf : Interface)
    (r : ReceiveResult) (h0 : 0 ≤ r.m_sequenceNumber)
    (h1 : r.m_sequenceNumber < s.m_finalSequenceNumber)
    (h2 : castToSizeT r.m_sequenceNumber < s.m_latencyData.length) :
    ReceiveCompletion s itf r
      = .ok { s with m_latencyData :=
          (s.m_latencyData.set (castToSizeT r.m_sequenceNumber)
            (writeReceiveFields
              (s.m_latencyData.getD (castToSizeT r.m_sequenceNumber) LatencyData.init)
              itf r)) } := by
  have hc : ¬ (r.m_sequenceNumber < 0 ∨ r.m_sequenceNumber ≥ s.m_finalSequenceNumber) := by
    omega
  unfold ReceiveCompletion
  rw [if_neg hc, dif_pos h2, listGetD_eq_get _ _ _ h2]

/-- Claim C3 witness: the amended statement at a concrete in-range frame. -/
theorem claim3_receive_writes_path_fields_witness :
    ReceiveCompletion s3w .Primary r3w
      = .ok { s3w with m_latencyData :=
          (s3w.m_latencyData.set (castToSizeT r3w.m_sequenceNumber)
            (writeReceiveFields
              (s3w.m_latencyData.getD (castToSizeT r3w.m_sequenceNumber) LatencyData.init)
              .Primary r3w)) } :=
  claim3_receive_writes_path_fields s3w .Primary r3w (by decide) (by decide) (by decide)

/-- Claim C4: a receive completion whose decoded sequence number is negative or
at least `m_finalSequenceNumber` increments the corrupt-frame counter of the
path it arrived on and leaves every aggregator record (and all other state)
unchanged. -/
theorem claim4_out_of_range_counted_corrupt (s : StreamClient) (itf : Interface)
    (r : ReceiveResult)
    (h : r.m_sequenceNumber < 0 ∨ r.m_sequenceNumber ≥ s.m_finalSequenceNumber) :
    ReceiveCompletion s itf r
      = .ok (match itf with
        | .Primary => { s with m_primaryCorruptFrames := s.m_primaryCorruptFrames + 1 }
        | .Secondary =>
          { s with m_secondaryCorruptFrames := s.m_secondaryCorruptFrames + 1 }) := by
  unfold ReceiveCompletion
  rw [if_pos h]

/-- Claim C4 witness: a frame with sequence number −1 is counted corrupt on the
primary path and stores nothing. -/
theorem claim4_out_of_range_counted_corrupt_witness :
    ReceiveCompletion initClient .Primary
        { m_sequenceNumber := -1, m_sendTimestamp := 0, m_echoTimestamp := 0
        , m_receiveTimestamp := 0 }
      = .ok { initClient with
              m_primaryCorruptFrames := initClient.m_primaryCorruptFrames + 1 } :=
  claim4_out_of_range_counted_corrupt initClient .Primary
    { m_sequenceNumber := -1, m_sendTimestamp := 0, m_echoTimestamp := 0
    , m_receiveTimestamp := 0 }
    (Or.inl (by decide))

/-- Claim C5: `ValidateBufferLength` returns false exactly for byte counts below
the 24-byte fixed header, and a 23-byte receive completion is counted corrupt
for its path before any header parsing and touches no aggregator record. -/
theorem claim5_short_frame_rejected :
    (∀ n : Nat, ValidateBufferLength n = false ↔ n < 24) ∧
    (∀ (s : StreamClient) (itf : Interface) (r : ReceiveResult),
      MeasuredSocketReceive s itf 23 r
        = .ok (match itf with
          | .Primary =>
            { s with primaryStateCorruptFrames := s.primaryStateCorruptFrames + 1 }
          | .Secondary =>
            { s with secondaryStateCorruptFrames := s.secondaryStateCorruptFrames + 1 })) := by
  constructor
  · intro n
    unfold ValidateBufferLength c_datagramHeaderLength c_datagramSequenceNumberLength
      c_datagramTimestampLength
    split <;> simp_all
  · intro s itf r
    cases itf <;> rfl

/-- Claim C6, counterexample: a second `Stop` immediately after a first one
performs a second `SetEvent` call on the completion event, so the first call's
side effects are not the end of the story. -/
theorem claim6_counterexample :
    (Stop initClient).setEventCount = 1 ∧ (Stop (Stop initClient)).setEventCount = 2 := by
  decide

/-- Claim C6, amended: a second `Stop` immediately after a first one changes no
state of either path, of the timer, of the subscription or of the running flag
— but it does signal the completion event a second time (a no-op only if the
event is still signaled). -/
theorem claim6_second_stop (s : StreamClient) :
    Stop (Stop s) = { Stop s with setEventCount := (Stop s).setEventCount + 1 } := rfl

/-- Claim C7: with `finalSequenceNumber = N > 0` and `m_frameRate = F > 0` when
the timer is first armed, the sequence counter at 0 and the client running
(ticks modelled as running to completion, the flag untouched in between),
the scheduler stops after exactly `⌈N / F⌉ = (N + F − 1) / F` callbacks:
`ticksUntilStop` succeeds with exactly that tick count, the terminal state has
sequence counter `N`, the running flag cleared and the completion event
signaled; moreover each `SendDatagrams` advances the shared counter exactly
once even when the same sequence number goes out on both paths. -/
theorem claim7_scheduler_termination (s : StreamClient) (N F : Int)
    (hN : 0 < N) (hF : 0 < F)
    (h1 : s.m_finalSequenceNumber = N) (h2 : s.m_frameRate = F)
    (h3 : s.m_sequenceNumber = 0) (h4 : s.m_running = true) :
    (∀ u : StreamClient, (SendDatagrams u).m_sequenceNumber = u.m_sequenceNumber + 1) ∧
    ∃ t : StreamClient,
      ticksUntilStop ((N.toNat + F.toNat - 1) / F.toNat) s
        = some ((N.toNat + F.toNat - 1) / F.toNat, t) ∧
      t.m_sequenceNumber = N ∧
      t.m_running = false ∧
      t.setEventCount = s.setEventCount + 1 := by
  refine ⟨fun u => (SendDatagrams_fields u).1, ?_⟩
  have hn : ((N.toNat : Nat) : Int) = N := Int.toNat_of_nonneg hN.le
  have hm : ((F.toNat : Nat) : Int) = F := Int.toNat_of_nonneg hF.le
  have hmpos : 0 < F.toNat := by omega
  have hnpos : 0 < N.toNat := by omega
  have hdm := Nat.div_add_mod (N.toNat + F.toNat - 1) F.toNat
  have hmod : (N.toNat + F.toNat - 1) % F.toNat < F.toNat := Nat.mod_lt _ hmpos
  generalize hqdef : (N.toNat + F.toNat - 1) / F.toNat = q at hdm ⊢
  have hq1 : 0 < q := by
    rcases Nat.eq_zero_or_pos q with h0 | h
    · subst h0
      simp at hdm
      omega
    · exact h
  obtain ⟨j, rfl⟩ : ∃ j, q = j + 1 := ⟨q - 1, by omega⟩
  rw [Nat.mul_succ] at hdm
  have key : N.toNat ≤ F.toNat * j + F.toNat ∧ F.toNat * j < N.toNat := by
    generalize hK : F.toNat * j = K at hdm ⊢
    omega
  have hubI : N ≤ ((j + 1 : Nat) : Int) * F := by
    rw [← hn, ← hm]
    have hNat : N.toNat ≤ (j + 1) * F.toNat := by
      rw [Nat.succ_mul, Nat.mul_comm j F.toNat]
      exact key.1
    exact_mod_cast hNat
  have hlbI : (((j + 1 : Nat) : Int) - 1) * F < N := by
    rw [← hn, ← hm]
    have hNat : j * F.toNat < N.toNat := by
      rw [Nat.mul_comm]
      exact key.2
    have hc : ((j + 1 : Nat) : Int) - 1 = ((j : Nat) : Int) := by omega
    rw [hc]
    exact_mod_cast hNat
  obtain ⟨t, ht1, ht2, ht3, ht4⟩ :=
    ticks_exact (j + 1) s h4 (by rw [h2]; exact hF)
      (by rw [h3, h1]; exact hN)
      (by rw [h1, h2, h3]; linarith)
      (by rw [h1, h2, h3]; linarith)
  exact ⟨t, ht1, by rw [ht2, h1], ht3, ht4⟩

/-- Claim C7 witness: five frames at two per tick stop after the third tick
with the counter at five and the completion event signaled. -/
theorem claim7_scheduler_termination_witness :
    (∀ u : StreamClient, (SendDatagrams u).m_sequenceNumber = u.m_sequenceNumber + 1) ∧
    ∃ t : StreamClient,
      ticksUntilStop 3 s7w = some (3, t) ∧
      t.m_sequenceNumber = 5 ∧
      t.m_running = false ∧
      t.setEventCount = s7w.setEventCount + 1 :=
  claim7_scheduler_termination s7w 5 2 (by decide) (by decide) rfl rfl rfl rfl

/-- Claim C8: the tick interval is `datagramSize * frameRate * 10^7 / (bitRate/8)`
hundred-nanosecond units under integer division, which for the 2,000,000-bit/s,
50-frame, 1024-byte scenario — the values `Start` passes — is 2,048,000. -/
theorem claim8_tick_interval (b f d : Int) (hb : 0 < b) (hf : 0 < f) (hd : 0 < d) :
    CalculateTickInterval b f d = d * f * 10000000 / (b / 8) ∧
    CalculateTickInterval 2000000 50 1024 = 2048000 ∧
    (Start initClient 2000000 50 10).m_tickInterval = 2048000 :=
  ⟨rfl, by decide, by decide⟩

/-- Claim C8 witness: the tick-interval formula instantiated at the scenario's
positive rates. -/
theorem claim8_tick_interval_witness :
    CalculateTickInterval 2000000 50 1024 = 1024 * 50 * 10000000 / (2000000 / 8) ∧
    CalculateTickInterval 2000000 50 1024 = 2048000 ∧
    (Start initClient 2000000 50 10).m_tickInterval = 2048000 :=
  claim8_tick_interval 2000000 50 1024 (by decide) (by decide) (by decide)

/-- Claim C9, counterexample: an `ERROR_NOT_CONNECTED` failure thrown by `Setup`
— a failure of the sequence that is not "CheckConnectivity failed unreachable" —
does not abort the process; the catch block demotes the path to `Connecting`. -/
theorem claim9_counterexample :
    updateSecondaryConnecting sConn true .errorNotConnected .success .success
        ≠ .processAborted ∧
    updateSecondaryConnecting sConn true .errorNotConnected .success .success
      = .ok { sConn with secondarySocketOpen := false
                       , secondaryStatus := AdapterStatus.Connecting } := by
  decide

/-- Claim C9, amended: when a `Connecting` secondary interface is confirmed
reachable, success of `Setup`, `CheckConnectivity` and `PrepareToReceive`
promotes the adapter to `Ready`; an `ERROR_NOT_CONNECTED` failure from
whichever of the three calls fails first cancels the path and demotes it back
to `Connecting` for a later retry; a failure with any other error from any of
them aborts the process. -/
theorem claim9_secondary_promotion (s : StreamClient)
    (h : s.secondaryStatus = AdapterStatus.Connecting) :
    (updateSecondaryConnecting s true .success .success .success
      = .ok { s with secondarySocketOpen := true
                   , secondaryStatus := AdapterStatus.Ready }) ∧
    (∀ c p, updateSecondaryConnecting s true .errorNotConnected c p
      = .ok { s with secondarySocketOpen := false
                   , secondaryStatus := AdapterStatus.Connecting }) ∧
    (∀ p, updateSecondaryConnecting s true .success .errorNotConnected p
      = .ok { s with secondarySocketOpen := false
                   , secondaryStatus := AdapterStatus.Connecting }) ∧
    (updateSecondaryConnecting s true .success .success .errorNotConnected
      = .ok { s with secondarySocketOpen := false
                   , secondaryStatus := AdapterStatus.Connecting }) ∧
    (∀ c p, updateSecondaryConnecting s true .errorOther c p = .processAborted) ∧
    (∀ p, updateSecondaryConnecting s true .success .errorOther p = .processAborted) ∧
    (updateSecondaryConnecting s true .success .success .errorOther = .processAborted) := by
  have hg : s.secondaryStatus = AdapterStatus.Connecting ∧ (true : Bool) = true := ⟨h, rfl⟩
  unfold updateSecondaryConnecting
  refine ⟨?_, ?_, ?_, ?_, ?_, ?_, ?_⟩ <;> (intros; rw [if_pos hg])

/-- Claim C9 witness: the amended statement at a concrete `Connecting` client. -/
theorem claim9_secondary_promotion_witness :
    (updateSecondaryConnecting sConn true .success .success .success
      = .ok { sConn with secondarySocketOpen := true
                       , secondaryStatus := AdapterStatus.Ready }) ∧
    (∀ c p, updateSecondaryConnecting sConn true .errorNotConnected c p
      = .ok { sConn with secondarySocketOpen := false
                       , secondaryStatus := AdapterStatus.Connecting }) ∧
    (∀ p, updateSecondaryConnecting sConn true .success .errorNotConnected p
      = .ok { sConn with secondarySocketOpen := false
                       , secondaryStatus := AdapterStatus.Connecting }) ∧
    (updateSecondaryConnecting sConn true .success .success .errorNotConnected
      = .ok { sConn with secondarySocketOpen := false
                       , secondaryStatus := AdapterStatus.Connecting }) ∧
    (∀ c p, updateSecondaryConnecting sConn true .errorOther c p = .processAborted) ∧
    (∀ p, updateSecondaryConnecting sConn true .success .errorOther p = .processAborted) ∧
    (updateSecondaryConnecting sConn true .success .success .errorOther = .processAborted) :=
  claim9_secondary_promotion sConn rfl

/-- Claim C10: `m_finalSequenceNumber` is initialized to −1 once at
construction; each `Start` only adds that run's computed datagram count. After
a first `Start` with planned count `D` the final sequence number is `D − 1` and
the aggregator holds `D − 1` records, and after any sequence of `Start` calls
(restarts included) the final sequence number is the sum of all the runs'
planned counts minus 1, never a value recomputed from the last run alone. The
bounds on `b` and `d` are the `unsigned long` ranges of `Start`'s C++
parameters. -/
theorem claim10_final_sequence_accumulates (b f d : Nat)
    (hb : b < 4294967296) (hd : d < 4294967296)
    (hD : 1 ≤ CalculateNumberOfDatagramToSend d b (c_bufferSize : Int)) :
    initClient.m_finalSequenceNumber = -1 ∧
    (Start initClient b f d).m_finalSequenceNumber
      = CalculateNumberOfDatagramToSend d b (c_bufferSize : Int) - 1 ∧
    (Start initClient b f d).m_latencyData.length
      = (CalculateNumberOfDatagramToSend d b (c_bufferSize : Int) - 1).toNat ∧
    (∀ runs : List (Nat × Nat × Nat),
      (startRuns initClient runs).m_finalSequenceNumber
        = (runs.map (fun p =>
            CalculateNumberOfDatagramToSend p.2.2 p.1 (c_bufferSize : Int))).sum - 1) := by
  have hinit : initClient.m_finalSequenceNumber = -1 := rfl
  have hcalc : CalculateNumberOfDatagramToSend d b (c_bufferSize : Int)
      = (d : Int) * ((b : Int) / 8) / 1024 := by
    simp only [CalculateNumberOfDatagramToSend, c_bufferSize]
    norm_num
  have hbdiv : (0 : Int) ≤ (b : Int) / 8 ∧ (b : Int) / 8 < 536870912 := by
    constructor <;> omega
  have hdpos : (0 : Int) ≤ (d : Int) ∧ (d : Int) < 4294967296 := by
    constructor <;> omega
  have hprod : (0 : Int) ≤ (d : Int) * ((b : Int) / 8) ∧
      (d : Int) * ((b : Int) / 8) < 2305843009213693952 := by
    constructor
    · exact mul_nonneg hdpos.1 hbdiv.1
    · calc (d : Int) * ((b : Int) / 8)
          < 4294967296 * 536870912 := mul_lt_mul'' hdpos.2 hbdiv.2 hdpos.1 hbdiv.1
        _ = 2305843009213693952 := by norm_num
  refine ⟨rfl, ?_, ?_, ?_⟩
  · rw [Start_final, hcalc, hinit]
    generalize (d : Int) * ((b : Int) / 8) = p
    omega
  · rw [Start_latencyData, vectorResize_length, hcalc, hinit]
    rw [hcalc] at hD
    unfold castToSizeT
    generalize hp : (d : Int) * ((b : Int) / 8) = p at hD hprod ⊢
    omega
  · intro runs
    rw [startRuns_final, hinit]
    omega

/-- Claim C10 witness: the accumulation statement at the end-to-end scenario's
parameters (planned count 2441). -/
theorem claim10_final_sequence_accumulates_witness :
    initClient.m_finalSequenceNumber = -1 ∧
    (Start initClient 2000000 50 10).m_finalSequenceNumber
      = CalculateNumberOfDatagramToSend 10 2000000 (c_bufferSize : Int) - 1 ∧
    (Start initClient 2000000 50 10).m_latencyData.length
      = (CalculateNumberOfDatagramToSend 10 2000000 (c_bufferSize : Int) - 1).toNat ∧
    (∀ runs : List (Nat × Nat × Nat),
      (startRuns initClient runs).m_finalSequenceNumber
        = (runs.map (fun p =>
            CalculateNumberOfDatagramToSend p.2.2 p.1 (c_bufferSize : Int))).sum - 1) :=
  claim10_final_sequence_accumulates 2000000 50 10 (by decide) (by decide) (by decide)

end Multipath
